import Mathlib

/-!
Verification of the dropdown-menu component
(src/packages/react/dropdown-menu/src/DropdownMenu.tsx).

The component is a thin composition layer: a root controller holding the
open state and a shared context, a trigger with pointer and keyboard
handlers, and a positioned surface (popper) wrapping an external menu
primitive. We give a shallow embedding of the pure decision logic of the
handlers and of the attribute computation of the rendered elements.

Event handlers are embedded as pure functions from the event data (and the
relevant component state) to the resulting state and emitted effects.
Caller-supplied handlers are represented by opaque numeric identifiers; an
effect record tracks which of them the code invokes.
-/

namespace DropdownMenu

/-- The shared context value published by the root
(DropdownMenu.tsx lines 20-25, 49-53): the trigger element reference
(modelled as a numeric element id), the shared id string, and the open
flag. The state setter is modelled separately (see `ControlledState` and
the handler functions below). -/
structure DropdownMenuContextValue where
  triggerRef : Nat
  id : String
  isOpen : Bool
deriving DecidableEq, Repr

/-- MODELLED FROM THE SPEC: the controlled-state resolution hook
`useControlledState` lives in the repository package
`@interop-ui/react-utils`, which is not under src/. Per the spec: "if an
explicit value is supplied, it is authoritative and all writes are
forwarded to the change callback without local mutation; otherwise a local
default is used and writes mutate local state directly". `prop` is the
caller-supplied `isOpen` prop, `localState` the internal uncontrolled
cell (initialised from `defaultIsOpen`, possibly absent). -/
structure ControlledState where
  prop : Option Bool
  localState : Option Bool
deriving DecidableEq, Repr

/-- The open value displayed by the root: the controlled prop when
supplied, else the local cell, defaulting to `false` per the destructuring
default `isOpen = false` at DropdownMenu.tsx line 44. -/
def displayedIsOpen (s : ControlledState) : Bool :=
  (s.prop.getD (s.localState.getD false))

/-- Modelled from the spec: a write through `setIsOpen` with an updater
function `f` (the proposed next value is `f` of the current displayed
value). Controlled: the state is left unmutated and the proposed value is
forwarded to the change callback (returned as the list of emitted
`onIsOpenChange` calls). Uncontrolled: the local cell is mutated
directly. -/
def setIsOpen (s : ControlledState) (f : Bool → Bool) :
    ControlledState × List Bool :=
  let next := f (displayedIsOpen s)
  match s.prop with
  | some _ => (s, [next])
  | none => ({ s with localState := some next }, [])

/-- The id resolved by the root (DropdownMenu.tsx line 43):
`idProp || dropdown-menu-(generatedId)`. The JS `||` falls through to the
generated id when `idProp` is undefined or the empty string. -/
def rootId (idProp : Option String) (generatedId : String) : String :=
  match idProp with
  | some s => if s = "" then "dropdown-menu-" ++ generatedId else s
  | none => "dropdown-menu-" ++ generatedId

/-- The mouse event data read by the trigger handler, plus the remaining
modifier flags of the DOM event (the handler itself reads only `button`
and `ctrlKey`, DropdownMenu.tsx line 84). -/
structure MouseEvent where
  button : Nat
  ctrlKey : Bool
  shiftKey : Bool
  altKey : Bool
  metaKey : Bool
deriving DecidableEq, Repr

/-- The internal mouse-down handler of the trigger
(DropdownMenu.tsx lines 81-87): if `event.button === 0 && event.ctrlKey
=== false` it calls `context.setIsOpen((prevOpen) => !prevOpen)`.
The result is the open state after the toggle is applied (uncontrolled
application; in controlled mode the same proposed value is forwarded to
the change callback, see `setIsOpen`). -/
def triggerMouseDown (ev : MouseEvent) (isOpen : Bool) : Bool :=
  if ev.button = 0 ∧ ev.ctrlKey = false then !isOpen else isOpen

/-- The keyboard event data read by the trigger handler. -/
structure KeyboardEvent where
  key : String
deriving DecidableEq, Repr

/-- Result of the trigger key-down handler: whether the handler called
`event.preventDefault()` and the resulting open state. -/
structure KeyDownResult where
  defaultPrevented : Bool
  isOpen : Bool
deriving DecidableEq, Repr

/-- The internal key-down handler of the trigger
(DropdownMenu.tsx lines 88-93): on Space, ArrowUp or ArrowDown it prevents
the default action and calls `context.setIsOpen(true)` (force-open, not a
toggle). Any other key is left untouched by this handler. -/
def triggerKeyDown (ev : KeyboardEvent) (isOpen : Bool) : KeyDownResult :=
  if ev.key = " " ∨ ev.key = "ArrowUp" ∨ ev.key = "ArrowDown" then
    { defaultPrevented := true, isOpen := true }
  else
    { defaultPrevented := false, isOpen := isOpen }

/-- The props of the trigger that the component destructures
(DropdownMenu.tsx line 68): `onClick` is destructured out alongside `as`;
the caller event handlers are modelled as opaque numeric handler ids. -/
structure TriggerProps where
  onClick : Option Nat
  onMouseDown : Option Nat
  onKeyDown : Option Nat
deriving DecidableEq, Repr

/-- The attributes and handlers of the host element rendered by the
trigger (DropdownMenu.tsx lines 72-95). `onClick` is the click handler
the host element receives from the caller; `onMouseDownCaller` and
`onKeyDownCaller` are the caller parts of the composed mouse-down and
key-down handlers (`composeEventHandlers(callerHandler, internal)`). -/
structure TriggerRendered where
  dataPart : String
  type : String
  ariaHaspopup : String
  ariaExpanded : Option Bool
  ariaControls : Option String
  onClick : Option Nat
  onMouseDownCaller : Option Nat
  onKeyDownCaller : Option Nat
deriving DecidableEq, Repr

/-- The rendering of the trigger (DropdownMenu.tsx lines 67-96). The JSX
sets `type="button"`, `aria-haspopup="menu"`,
`aria-expanded=(isOpen ? true : undefined)`,
`aria-controls=(isOpen ? id : undefined)`, then spreads the remaining
caller props (which no longer contain `onClick`: it was destructured away
at line 68 and is never used), then installs the composed mouse-down and
key-down handlers. -/
def renderTrigger (ctx : DropdownMenuContextValue) (props : TriggerProps) :
    TriggerRendered :=
  { dataPart := "DropdownMenuTrigger"
    type := "button"
    ariaHaspopup := "menu"
    ariaExpanded := if ctx.isOpen then some true else none
    ariaControls := if ctx.isOpen then some ctx.id else none
    onClick := none
    onMouseDownCaller := props.onMouseDown
    onKeyDownCaller := props.onKeyDown }

/-- The popper props destructured at DropdownMenu.tsx lines 116-124.
Boolean configuration props arrive optionally and default to `true`
(resolved in `renderPopper`); caller handlers are opaque numeric ids. -/
structure PopperProps where
  anchorRef : Option Nat
  disableOutsidePointerEvents : Option Bool
  onPointerDownOutside : Option Nat
  onInteractOutside : Option Nat
  disableOutsideScroll : Option Bool
  shouldPortal : Option Bool
deriving DecidableEq, Repr

/-- The props handed to the wrapped `MenuPrimitive.Root`
(DropdownMenu.tsx lines 128-173). `onPointerDownOutsideCaller` records
which caller handler, if any, reaches the primitive under the
`onPointerDownOutside` prop: the component installs its own internal
closure there, so the caller handler never does. -/
structure PopperRendered where
  id : String
  isOpen : Bool
  anchorRef : Nat
  trapFocus : Bool
  disableOutsidePointerEvents : Bool
  onInteractOutside : Option Nat
  onPointerDownOutsideCaller : Option Nat
  disableOutsideScroll : Bool
  shouldPortal : Bool
deriving DecidableEq, Repr

/-- The rendering of the positioned surface
(DropdownMenu.tsx lines 127-174): binds `id`, `isOpen` and the anchor
(`anchorRef || context.triggerRef`) from context, forces `trapFocus`,
forwards `onInteractOutside` as a prop of the primitive, and replaces
`onPointerDownOutside` by the internal closure (the destructured caller
`onPointerDownOutside` is never used). -/
def renderPopper (ctx : DropdownMenuContextValue) (props : PopperProps) :
    PopperRendered :=
  { id := ctx.id
    isOpen := ctx.isOpen
    anchorRef := props.anchorRef.getD ctx.triggerRef
    trapFocus := true
    disableOutsidePointerEvents := props.disableOutsidePointerEvents.getD true
    onInteractOutside := props.onInteractOutside
    onPointerDownOutsideCaller := none
    disableOutsideScroll := props.disableOutsideScroll.getD true
    shouldPortal := props.shouldPortal.getD true }

/-- The outside pointer-down event data read by the internal handler:
whether `event.target === context.triggerRef.current` and whether the
event arrives already default-prevented. -/
structure OutsideEvent where
  targetIsTrigger : Bool
  defaultPrevented : Bool
deriving DecidableEq, Repr

/-- Effects of one run of the internal outside-pointer-down handler:
the value of the `skipCloseAutoFocus` flag after the handler, whether the
event ended up default-prevented, and which caller handlers were invoked
from inside the handler. -/
structure PointerDownOutsideResult where
  skipCloseAutoFocus : Bool
  defaultPrevented : Bool
  callerInteractOutsideInvoked : Bool
  callerPointerDownOutsideInvoked : Bool
deriving DecidableEq, Repr

/-- The internal `onPointerDownOutside` closure installed on the primitive
(DropdownMenu.tsx lines 150-168). Steps, in source order:
sets `skipCloseAutoFocus` to `!disableOutsidePointerEvents`; if the target
was the trigger it prevents the default, otherwise it invokes the caller
`onInteractOutside` handler (`hasInteractOutside` says whether one was
supplied, `interactOutsidePrevents` whether that handler prevents the
default); finally, if the event is default-prevented, it resets
`skipCloseAutoFocus` to false. The caller `onPointerDownOutside` prop is
not referenced anywhere in the closure. -/
def popperPointerDownOutside (disableOutsidePointerEvents : Bool)
    (hasInteractOutside : Bool) (interactOutsidePrevents : Bool)
    (ev : OutsideEvent) : PointerDownOutsideResult :=
  let wasTrigger := ev.targetIsTrigger
  let skipAfterSet := !disableOutsidePointerEvents
  let invoked := !wasTrigger && hasInteractOutside
  let prevented :=
    ev.defaultPrevented || wasTrigger || (invoked && interactOutsidePrevents)
  { skipCloseAutoFocus := if prevented then false else skipAfterSet
    defaultPrevented := prevented
    callerInteractOutsideInvoked := invoked
    callerPointerDownOutsideInvoked := false }

/-- Effects of one run of the `onCloseAutoFocus` handler: whether the
default focus restoration was suppressed (`event.preventDefault()`),
whether focus was explicitly returned to the trigger element, and the
value of the `skipCloseAutoFocus` flag after the handler. -/
structure CloseAutoFocusResult where
  defaultPrevented : Bool
  focusRestoredToTrigger : Bool
  skipCloseAutoFocus : Bool
deriving DecidableEq, Repr

/-- The `onCloseAutoFocus` handler installed on the primitive
(DropdownMenu.tsx lines 142-148): if `skipCloseAutoFocus` is set it
prevents the default restoration, otherwise it focuses the trigger
element (`context.triggerRef.current?.focus()`; `hasTriggerElement` says
whether the reference currently holds an element). The handler never
writes the flag, so the flag after the handler equals the flag before. -/
def popperCloseAutoFocus (skipCloseAutoFocus : Bool)
    (hasTriggerElement : Bool) : CloseAutoFocusResult :=
  if skipCloseAutoFocus then
    { defaultPrevented := true
      focusRestoredToTrigger := false
      skipCloseAutoFocus := skipCloseAutoFocus }
  else
    { defaultPrevented := false
      focusRestoredToTrigger := hasTriggerElement
      skipCloseAutoFocus := skipCloseAutoFocus }

/-! ## Theorems -/

/-- C1 counterexample: a pointer-down with the primary button, Ctrl not
held but Shift held, does change the open state (the handler checks only
`button` and `ctrlKey`, so Shift does not suppress the toggle), refuting
the claim that a pointer-down with any modifier key held never changes the
open state. -/
theorem trigger_mousedown_shift_cex :
    ¬ (triggerMouseDown ⟨0, false, true, false, false⟩ false = false) := by
  decide

/-- C1 (amended): the trigger mouse-down handler toggles the open state
exactly when the press is with the primary button (button 0) and the Ctrl
key is not held; a non-primary-button press, or a press with Ctrl held,
never changes the open state. Other modifier keys (Shift, Alt, Meta) are
ignored. -/
theorem trigger_mousedown_toggle (ev : MouseEvent) (isOpen : Bool) :
    (ev.button = 0 ∧ ev.ctrlKey = false → triggerMouseDown ev isOpen = !isOpen) ∧
    (¬(ev.button = 0 ∧ ev.ctrlKey = false) → triggerMouseDown ev isOpen = isOpen) := by
  constructor <;> intro h <;> unfold triggerMouseDown
  · rw [if_pos h]
  · rw [if_neg h]

/-- Witness for C1 (amended) at concrete events: a plain primary press
toggles closed to open; a secondary-button press leaves the state. -/
theorem trigger_mousedown_toggle_witness :
    triggerMouseDown ⟨0, false, false, false, false⟩ false = !false ∧
    triggerMouseDown ⟨2, false, false, false, false⟩ false = false :=
  ⟨(trigger_mousedown_toggle ⟨0, false, false, false, false⟩ false).1 (by decide),
   (trigger_mousedown_toggle ⟨2, false, false, false, false⟩ false).2 (by decide)⟩

/-- C2 counterexample: with the skip flag set, after an auto-close that
suppressed the restoration, an immediately following close (no intervening
outside pointer-down) does NOT restore focus to the trigger: the close
handler never resets the flag, refuting the claimed one-close scope. -/
theorem skipCloseAutoFocus_not_reset_cex :
    ¬ ((popperCloseAutoFocus
          (popperCloseAutoFocus true true).skipCloseAutoFocus
          true).focusRestoredToTrigger = true) := by
  decide

/-- C2 (amended): on an auto-close with the skip flag set, the default
focus restoration is suppressed for that close, but the close handler does
not reset the flag: it remains set, so an immediately following close
(with no intervening outside pointer-down) is suppressed as well. The
flag is only written by the outside-pointer-down handler. When the flag is
clear, a close restores focus to the trigger element whenever the trigger
reference holds one. -/
theorem skipCloseAutoFocus_suppression (hasTrig hasTrig₂ : Bool) :
    (popperCloseAutoFocus true hasTrig).defaultPrevented = true ∧
    (popperCloseAutoFocus true hasTrig).focusRestoredToTrigger = false ∧
    (popperCloseAutoFocus true hasTrig).skipCloseAutoFocus = true ∧
    (popperCloseAutoFocus (popperCloseAutoFocus true hasTrig).skipCloseAutoFocus
        hasTrig₂).defaultPrevented = true ∧
    (popperCloseAutoFocus (popperCloseAutoFocus true hasTrig).skipCloseAutoFocus
        hasTrig₂).focusRestoredToTrigger = false ∧
    (popperCloseAutoFocus false hasTrig).focusRestoredToTrigger = hasTrig := by
  cases hasTrig <;> cases hasTrig₂ <;> decide

/-- C3: when the root is controlled (`isOpen` prop supplied), every write
through `setIsOpen` leaves the tracked state unmutated and emits exactly
one `onIsOpenChange` call carrying the proposed next value; the displayed
state after the write still equals the prop, and changes only when the
caller feeds a new value back through the prop. Modelled from the spec
(the `useControlledState` hook is not under src/). -/
theorem controlled_setIsOpen_forwards (p : Bool) (ls : Option Bool)
    (f : Bool → Bool) :
    (setIsOpen ⟨some p, ls⟩ f).1 = ⟨some p, ls⟩ ∧
    (setIsOpen ⟨some p, ls⟩ f).2 = [f p] ∧
    displayedIsOpen (setIsOpen ⟨some p, ls⟩ f).1 = p ∧
    (∀ v : Bool, displayedIsOpen ⟨some v, ls⟩ = v) :=
  ⟨rfl, rfl, rfl, fun _ => rfl⟩

/-- C4 counterexample: a caller-supplied onClick handler (id 7) is not
forwarded to the rendered host element: the rendered onClick is `none`,
refuting the claim that the onClick prop is passed through. -/
theorem onClick_dropped_cex :
    ¬ ((renderTrigger ⟨0, "menu-1", true⟩ ⟨some 7, none, none⟩).onClick
        = some 7) := by
  decide

/-- C4 (amended): a caller-supplied onClick is destructured away by the
trigger and never reaches the rendered host element (the host gets no
onClick), while the caller mouse-down and key-down handlers ARE forwarded,
composed before the internal handlers. -/
theorem trigger_props_passthrough (ctx : DropdownMenuContextValue)
    (props : TriggerProps) :
    (renderTrigger ctx props).onClick = none ∧
    (renderTrigger ctx props).onMouseDownCaller = props.onMouseDown ∧
    (renderTrigger ctx props).onKeyDownCaller = props.onKeyDown :=
  ⟨rfl, rfl, rfl⟩

/-- C5: for an outside pointer-down whose target is not the trigger, the
internal handler invokes the caller onInteractOutside handler exactly when
one is supplied; the surface also forwards onInteractOutside to the
underlying primitive as its own prop; and the caller onPointerDownOutside
prop is destructured away: it is never invoked by the internal handler
and never forwarded to the primitive. -/
theorem outside_interact_forwarding (ctx : DropdownMenuContextValue)
    (props : PopperProps) (prevents : Bool) (ev : OutsideEvent)
    (h : ev.targetIsTrigger = false) :
    (popperPointerDownOutside (props.disableOutsidePointerEvents.getD true)
        props.onInteractOutside.isSome prevents ev).callerInteractOutsideInvoked
      = props.onInteractOutside.isSome ∧
    (renderPopper ctx props).onInteractOutside = props.onInteractOutside ∧
    (popperPointerDownOutside (props.disableOutsidePointerEvents.getD true)
        props.onInteractOutside.isSome prevents ev).callerPointerDownOutsideInvoked
      = false ∧
    (renderPopper ctx props).onPointerDownOutsideCaller = none := by
  refine ⟨?_, rfl, rfl, rfl⟩
  simp [popperPointerDownOutside, h]

/-- Witness for C5 at a concrete outside (non-trigger) event with a
supplied onInteractOutside handler (id 3). -/
theorem outside_interact_forwarding_witness :
    (popperPointerDownOutside true true false
        ⟨false, false⟩).callerInteractOutsideInvoked = true ∧
    (renderPopper ⟨0, "m", true⟩
        ⟨none, none, none, some 3, none, none⟩).onPointerDownOutsideCaller
      = none :=
  ⟨(outside_interact_forwarding ⟨0, "m", true⟩ ⟨none, none, none, some 3, none, none⟩
      false ⟨false, false⟩ rfl).1,
   (outside_interact_forwarding ⟨0, "m", true⟩ ⟨none, none, none, some 3, none, none⟩
      false ⟨false, false⟩ rfl).2.2.2⟩

/-- C6: for an outside pointer-down whose target is the trigger element
(the handler only runs while the surface is open), the internal handler
prevents the default dismissal and does not invoke the caller
onInteractOutside handler for that event. -/
theorem trigger_target_prevents (disable hasIO prevents : Bool)
    (ev : OutsideEvent) (h : ev.targetIsTrigger = true) :
    (popperPointerDownOutside disable hasIO prevents ev).defaultPrevented
      = true ∧
    (popperPointerDownOutside disable hasIO prevents ev).callerInteractOutsideInvoked
      = false := by
  simp [popperPointerDownOutside, h]

/-- Witness for C6 at a concrete pointer-down on the trigger, with a
caller handler supplied. -/
theorem trigger_target_prevents_witness :
    (popperPointerDownOutside true true false
        ⟨true, false⟩).defaultPrevented = true ∧
    (popperPointerDownOutside true true false
        ⟨true, false⟩).callerInteractOutsideInvoked = false :=
  trigger_target_prevents true true false ⟨true, false⟩ rfl

/-- C7: after any run of the internal outside-pointer-down handler, the
skip flag equals `!disableOutsidePointerEvents` when the event did not end
up default-prevented (set to true exactly when the configuration is
false), and is cleared to false whenever the event ended up
default-prevented, whether by the trigger-target special case, by the
caller handler, or because the event arrived prevented. -/
theorem skip_flag_set_and_cleared (disable hasIO prevents : Bool)
    (ev : OutsideEvent) :
    (popperPointerDownOutside disable hasIO prevents ev).skipCloseAutoFocus
      = (!disable &&
         !(popperPointerDownOutside disable hasIO prevents ev).defaultPrevented) := by
  rcases ev with ⟨t, d⟩
  cases disable <;> cases hasIO <;> cases prevents <;> cases t <;> cases d <;> rfl

/-- C8: a key-down of Space, ArrowUp or ArrowDown on the trigger prevents
the default action and forces the open state to true, from either state
(idempotent from open). -/
theorem trigger_keydown_forces_open (ev : KeyboardEvent) (isOpen : Bool)
    (h : ev.key = " " ∨ ev.key = "ArrowUp" ∨ ev.key = "ArrowDown") :
    (triggerKeyDown ev isOpen).defaultPrevented = true ∧
    (triggerKeyDown ev isOpen).isOpen = true := by
  unfold triggerKeyDown
  rw [if_pos h]
  exact ⟨rfl, rfl⟩

/-- Witness for C8: ArrowDown while already open keeps the state open and
prevents the default action. -/
theorem trigger_keydown_forces_open_witness :
    (triggerKeyDown ⟨"ArrowDown"⟩ true).defaultPrevented = true ∧
    (triggerKeyDown ⟨"ArrowDown"⟩ true).isOpen = true :=
  trigger_keydown_forces_open ⟨"ArrowDown"⟩ true (Or.inr (Or.inr rfl))

/-- C9: the rendered trigger always carries `aria-haspopup="menu"`;
`aria-expanded` is present exactly when the open state is true, and then
carries the value true; `aria-controls` is present exactly when the open
state is true, and then carries the shared context id. -/
theorem trigger_aria_attributes (ctx : DropdownMenuContextValue)
    (props : TriggerProps) :
    (renderTrigger ctx props).ariaHaspopup = "menu" ∧
    (renderTrigger ctx props).ariaExpanded.isSome = ctx.isOpen ∧
    (ctx.isOpen = true → (renderTrigger ctx props).ariaExpanded = some true) ∧
    (renderTrigger ctx props).ariaControls.isSome = ctx.isOpen ∧
    (ctx.isOpen = true → (renderTrigger ctx props).ariaControls = some ctx.id) := by
  rcases ctx with ⟨tr, i, o⟩
  cases o <;> simp [renderTrigger]

/-- Witness for C9 at a concrete open context. -/
theorem trigger_aria_attributes_witness :
    (renderTrigger ⟨0, "m", true⟩ ⟨none, none, none⟩).ariaExpanded = some true ∧
    (renderTrigger ⟨0, "m", true⟩ ⟨none, none, none⟩).ariaControls = some "m" :=
  ⟨(trigger_aria_attributes ⟨0, "m", true⟩ ⟨none, none, none⟩).2.2.1 rfl,
   (trigger_aria_attributes ⟨0, "m", true⟩ ⟨none, none, none⟩).2.2.2.2 rfl⟩

/-- C10: for any non-empty explicit id string, the resolved root id is
that exact string, the open trigger renders `aria-controls` equal to it,
and the surface renders its `id` attribute equal to it. -/
theorem id_round_trip (s g : String) (tr : Nat) (props : TriggerProps)
    (pprops : PopperProps) (h : s ≠ "") :
    rootId (some s) g = s ∧
    (renderTrigger ⟨tr, rootId (some s) g, true⟩ props).ariaControls = some s ∧
    (renderPopper ⟨tr, rootId (some s) g, true⟩ pprops).id = s := by
  have hid : rootId (some s) g = s := by
    simp [rootId, h]
  exact ⟨hid, by simp [renderTrigger, hid], by simp [renderPopper, hid]⟩

/-- Witness for C10 at the concrete id "my-menu". -/
theorem id_round_trip_witness :
    rootId (some "my-menu") "gen0" = "my-menu" ∧
    (renderTrigger ⟨0, rootId (some "my-menu") "gen0", true⟩
        ⟨none, none, none⟩).ariaControls = some "my-menu" ∧
    (renderPopper ⟨0, rootId (some "my-menu") "gen0", true⟩
        ⟨none, none, none, none, none, none⟩).id = "my-menu" :=
  id_round_trip "my-menu" "gen0" 0 ⟨none, none, none⟩
    ⟨none, none, none, none, none, none⟩ (by decide)

end DropdownMenu
